/-
Verification of the season-simulator subsystem of the sa20-cricket-predictor
frontend.  The definitions below are a shallow embedding of:

  * frontend/src/features/season-simulator-v2/types.ts          (data model)
  * frontend/src/features/season-simulator-v2/store/simulationStore.ts
      (store: initial state, reset, setMatches, updateMatchComplete)
  * frontend/src/features/season-simulator-v2/utils/matchResultGenerator.ts
      (generateRealisticMatchResult)
  * frontend/src/features/season-simulator-v2/hooks/useSimulationLoop.ts
      (LCG seeded random, toss derivation in prepareMatch, match resolution,
       updateStandings, error-path fallback, determinePlayoffTeams)
  * frontend/src/features/season-simulator-v2/SeasonSimulatorV2.tsx
      (playoff bracket wiring: handlers and the PLAYOFFS render dispatch)

JavaScript numbers are modelled as rationals (ℚ); `Math.floor` is `Int.floor`
and `Math.round x` is `Int.floor (x + 1/2)` (JS rounds half toward +∞).
Arrays are Lean lists, `x[i]` with a possibly-missing element is `x[i]?`,
`undefined`/`null` fields are `Option`, and the zustand store is an explicit
state record with each action an explicit state transformer (zustand `set`
merges a partial record, which is modelled by updating exactly the fields the
action passes to `set`).
-/
import Mathlib

/-! ## JS numeric primitives -/

/-- JS `Math.floor` on a (finite) number. -/
def jsFloor (x : ℚ) : ℤ := Int.floor x

/-- JS `Math.round` on a (finite) number: rounds half toward positive
infinity, i.e. `⌊x + 1/2⌋`. -/
def jsRound (x : ℚ) : ℤ := Int.floor (x + 1/2)

/-! ## Data model (types.ts) -/

/-- `'home' | 'away'` -/
inductive HomeAway where
  | home
  | away
deriving DecidableEq, BEq, Repr

/-- `'bat' | 'bowl'` -/
inductive TossDecision where
  | bat
  | bowl
deriving DecidableEq, BEq, Repr

/-- `'league' | 'semifinal_1' | 'semifinal_2' | 'eliminator' | 'final'` -/
inductive MatchType where
  | league
  | semifinal_1
  | semifinal_2
  | eliminator
  | final
deriving DecidableEq, BEq, Repr

/-- `SimulationPhase` string union from types.ts. -/
inductive SimulationPhase where
  | INTRO
  | FIXTURE_REVEAL
  | LEAGUE
  | QUALIFICATION
  | PLAYOFFS
  | FINAL
  | CHAMPION
  | TROPHY
  | REWIND
  | ANALYTICS
deriving DecidableEq, Repr

/-- Non-null values of `PreMatchStage` (the `null` case is `Option.none`). -/
inductive PreMatchStage where
  | toss
  | lineupTeam1
  | lineupTeam2
  | complete
deriving DecidableEq, Repr

/-- The playoff sub-phase union used by `currentPlayoffPhase`. -/
inductive PlayoffPhase where
  | semifinal_1
  | semifinal_2
  | eliminator
  | final
deriving DecidableEq, Repr

/-- `Team` from types.ts. -/
structure Team where
  id : ℕ
  name : String
  short_name : String
deriving DecidableEq, Repr

/-- One innings record inside `MatchResult`. -/
structure Innings where
  team_id : ℕ
  runs : ℚ
  wickets : ℚ
  overs : ℚ
deriving DecidableEq, Repr

/-- `top_scorer` optional payload of `MatchResult`. -/
structure TopScorer where
  name : String
  runs : ℚ
  balls : ℚ
deriving DecidableEq, Repr

/-- `best_bowler` optional payload of `MatchResult`. -/
structure BestBowler where
  name : String
  wickets : ℚ
  runs : ℚ
deriving DecidableEq, Repr

/-- `MatchResult` from types.ts. -/
structure MatchResult where
  winner_id : ℕ
  margin : String
  first_innings : Innings
  second_innings : Innings
  toss_winner_id : ℕ
  toss_decision : TossDecision
  player_of_match : Option String
  top_scorer : Option TopScorer
  best_bowler : Option BestBowler
deriving DecidableEq, Repr

/-- The only field of the untyped `prediction_data : any` payload that the
code under verification reads (`prediction.home_win_probability`). -/
structure PredictionData where
  home_win_probability : Option ℚ
deriving DecidableEq, Repr

/-- `Match` from types.ts. -/
structure Match where
  id : ℕ
  match_id : ℕ
  home_team_id : ℕ
  away_team_id : ℕ
  venue_id : ℕ
  home_team_name : String
  away_team_name : String
  venue_name : String
  winner_id : Option ℕ
  winner_name : Option String
  home_score : Option ℚ
  away_score : Option ℚ
  home_win_probability : Option ℚ
  away_win_probability : Option ℚ
  completed : Bool
  match_type : Option MatchType
  no_result : Option Bool
  toss_winner : Option HomeAway
  bat_first : Option HomeAway
  prediction_data : Option PredictionData
  result : Option MatchResult
deriving DecidableEq, Repr

/-- `Standing` from types.ts. -/
structure Standing where
  team_id : ℕ
  team_name : String
  position : ℚ
  matches_played : ℚ
  wins : ℚ
  losses : ℚ
  no_result : ℚ
  points : ℚ
  net_run_rate : ℚ
  playoff_probability : ℚ
  championship_probability : ℚ
deriving DecidableEq, Repr

/-- `TopPerformers.orangeCap` payload. -/
structure OrangeCap where
  player_id : ℕ
  player_name : String
  team_name : Option String
  runs : ℚ
deriving DecidableEq, Repr

/-- `TopPerformers.purpleCap` payload. -/
structure PurpleCap where
  player_id : ℕ
  player_name : String
  team_name : Option String
  wickets : ℚ
deriving DecidableEq, Repr

/-- `TopPerformers.mvp` payload. -/
structure MvpEntry where
  player_id : ℕ
  player_name : String
  team_name : Option String
  runs : ℚ
  wickets : ℚ
  score : ℚ
deriving DecidableEq, Repr

/-- `TopPerformers` from types.ts. -/
structure TopPerformers where
  orangeCap : Option OrangeCap
  purpleCap : Option PurpleCap
  mvp : Option MvpEntry
deriving DecidableEq, Repr

/-! ## Seeded random number generator (useSimulationLoop.ts)

`seedState = ((seedState * 9301) + 49297) % 233280; return seedState / 233280`
seeded with the match id.  The generator state is a natural number and each
draw is the updated state divided by 233280 as a rational. -/

/-- One LCG step: `(s * 9301 + 49297) % 233280`. -/
def lcgNext (s : ℕ) : ℕ := (s * 9301 + 49297) % 233280

/-- The LCG state after `k` steps from seed `s`. -/
def lcgIter (s : ℕ) : ℕ → ℕ
  | 0 => s
  | k + 1 => lcgNext (lcgIter s k)

/-- The `k`-th value returned by the seeded generator (0-indexed): the state
after `k + 1` steps, divided by 233280. -/
def lcgDraw (seed : ℕ) (k : ℕ) : ℚ := (lcgIter seed (k + 1) : ℚ) / 233280

/-! ## generateRealisticMatchResult (matchResultGenerator.ts)

The `seededRandom : () => number` closure argument is modelled as a stream
`rand : ℕ → ℚ` of its successive return values; the embedding threads the
number of draws consumed so far, calling the stream in exactly the order and
under exactly the conditions the source calls `seededRandom()`. -/

/-- `MatchResultGeneratorOptions` from matchResultGenerator.ts. -/
structure GenOptions where
  homeTeam : Team
  awayTeam : Team
  home_win_probability : ℚ
  away_win_probability : ℚ
  determinedWinner : HomeAway
  venue_id : ℕ
  venue_avg_first_innings_score : Option ℚ
  rand : ℕ → ℚ
  existingTossResult : Option (ℕ × TossDecision)

/-- The toss outcome used by the generator together with the number of random
draws it consumed: an existing toss result is reused verbatim (0 draws),
otherwise the winner (`< 0.5` → home) and the decision (`< 0.6` → bat) are
drawn (2 draws). -/
def tossOf (o : GenOptions) : HomeAway × TossDecision × ℕ :=
  match o.existingTossResult with
  | some (twid, td) =>
      (if twid = o.homeTeam.id then HomeAway.home else HomeAway.away, td, 0)
  | none =>
      ((if o.rand 0 < 1/2 then HomeAway.home else HomeAway.away),
       (if o.rand 1 < 6/10 then TossDecision.bat else TossDecision.bowl), 2)

/-- Batting order derived from the toss: home bats first iff (home won the
toss and chose to bat) or (away won the toss and chose to bowl). -/
def battingOrder (o : GenOptions) : Team × Team :=
  let tw := (tossOf o).1
  let td := (tossOf o).2.1
  if (tw = HomeAway.home ∧ td = TossDecision.bat)
      ∨ (tw = HomeAway.away ∧ td = TossDecision.bowl)
  then (o.homeTeam, o.awayTeam)
  else (o.awayTeam, o.homeTeam)

/-- `winnerIsSecondBatting` from matchResultGenerator.ts: the determined
winner is the team batting second. -/
def winnerIsSecondBatting (o : GenOptions) : Bool :=
  (o.determinedWinner == HomeAway.home && (battingOrder o).2.id == o.homeTeam.id)
    || (o.determinedWinner == HomeAway.away && (battingOrder o).2.id == o.awayTeam.id)

/-- `k0`: the index of the first random draw consumed after the toss
block. -/
def genK0 (o : GenOptions) : ℕ := (tossOf o).2.2

/-- `venueAvgScore = venue.avg_first_innings_score || 165` (null/undefined/0
are falsy). -/
def genVenueAvgScore (o : GenOptions) : ℚ :=
  match o.venue_avg_first_innings_score with
  | some v => if v = 0 then 165 else v
  | none => 165

/-- `teamStrength`: 0.9 plus 0.3 times the normalized win probability of the
first-batting side. -/
def genTeamStrength (o : GenOptions) : ℚ :=
  if (battingOrder o).1.id = o.homeTeam.id
  then 9/10 + (o.home_win_probability / 100) * (3/10)
  else 9/10 + (o.away_win_probability / 100) * (3/10)

/-- `firstInningsRuns = Math.round(venueAvgScore * teamStrength * (0.85 +
seededRandom() * 0.3))`. -/
def genFirstInningsRuns (o : GenOptions) : ℤ :=
  jsRound (genVenueAvgScore o * genTeamStrength o * (85/100 + o.rand (genK0 o) * (3/10)))

/-- `clampedFirstInnings = Math.max(100, Math.min(250, firstInningsRuns))`. -/
def genClampedFirstInnings (o : GenOptions) : ℤ :=
  max 100 (min 250 (genFirstInningsRuns o))

/-- `firstInningsWickets = Math.floor(4 + seededRandom() * 5)`. -/
def genFirstInningsWickets (o : GenOptions) : ℤ :=
  jsFloor (4 + o.rand (genK0 o + 1) * 5)

/-- `firstInningsOvers`: 20 unless all out, in which case `15 +
seededRandom() * 4` (that draw is only consumed in the all-out branch). -/
def genFirstInningsOvers (o : GenOptions) : ℚ :=
  if genFirstInningsWickets o = 10 then 15 + o.rand (genK0 o + 2) * 4 else 20

/-- The index of the next draw after the first innings (one extra draw was
consumed if the all-out branch ran). -/
def genK1 (o : GenOptions) : ℕ :=
  if genFirstInningsWickets o = 10 then genK0 o + 3 else genK0 o + 2

/-- Chase branch: `runMargin = 1 + Math.floor(seededRandom() * 15)`. -/
def genRunMargin (o : GenOptions) : ℤ := 1 + jsFloor (o.rand (genK1 o) * 15)

/-- Chase branch: `secondInningsWickets = Math.floor(4 + seededRandom() * 5)`. -/
def genChaseWickets (o : GenOptions) : ℤ := jsFloor (4 + o.rand (genK1 o + 1) * 5)

/-- Chase branch overs: by the size of the winning margin. -/
def genChaseOvers (o : GenOptions) : ℚ :=
  if 30 < genRunMargin o then 16 + o.rand (genK1 o + 2) * 3
  else if 15 < genRunMargin o then 18 + o.rand (genK1 o + 2) * 2
  else 19 + o.rand (genK1 o + 2) * 1

/-- Defend branch: `shortfall = 5 + Math.floor(seededRandom() * 30)`. -/
def genShortfall (o : GenOptions) : ℤ := 5 + jsFloor (o.rand (genK1 o) * 30)

/-- Defend branch: `secondInningsWickets = Math.floor(6 + seededRandom() * 4)`. -/
def genDefendWickets (o : GenOptions) : ℤ := jsFloor (6 + o.rand (genK1 o + 1) * 4)

/-- `generateRealisticMatchResult` from matchResultGenerator.ts, assembled
from the named local values above (each `gen*` definition is one `const` of
the source, with the random draws threaded in source order). -/
def generateRealisticMatchResult (o : GenOptions) : MatchResult :=
  if winnerIsSecondBatting o then
    -- successful chase: score = target + margin
    { winner_id := if o.determinedWinner = HomeAway.home then o.homeTeam.id else o.awayTeam.id
      margin := toString (10 - genChaseWickets o) ++ " wicket"
        ++ (if 10 - genChaseWickets o = 1 then "" else "s")
      first_innings :=
        { team_id := (battingOrder o).1.id
          runs := (jsRound ((genClampedFirstInnings o : ℤ) : ℚ) : ℚ)
          wickets := (jsRound ((genFirstInningsWickets o : ℤ) : ℚ) : ℚ)
          overs := (jsRound (genFirstInningsOvers o * 10) : ℚ) / 10 }
      second_innings :=
        { team_id := (battingOrder o).2.id
          runs := (jsRound ((genClampedFirstInnings o : ℚ) + (genRunMargin o : ℚ)) : ℚ)
          wickets := (jsRound ((genChaseWickets o : ℤ) : ℚ) : ℚ)
          overs := (jsRound (genChaseOvers o * 10) : ℚ) / 10 }
      toss_winner_id := if (tossOf o).1 = HomeAway.home then o.homeTeam.id else o.awayTeam.id
      toss_decision := (tossOf o).2.1
      player_of_match := none
      top_scorer := none
      best_bowler := none }
  else
    -- first batting team defended: chaser falls short
    { winner_id := if o.determinedWinner = HomeAway.home then o.homeTeam.id else o.awayTeam.id
      margin := toString (genShortfall o) ++ " run"
        ++ (if genShortfall o = 1 then "" else "s")
      first_innings :=
        { team_id := (battingOrder o).1.id
          runs := (jsRound ((genClampedFirstInnings o : ℤ) : ℚ) : ℚ)
          wickets := (jsRound ((genFirstInningsWickets o : ℤ) : ℚ) : ℚ)
          overs := (jsRound (genFirstInningsOvers o * 10) : ℚ) / 10 }
      second_innings :=
        { team_id := (battingOrder o).2.id
          runs := (jsRound ((genClampedFirstInnings o : ℚ) - (genShortfall o : ℚ)) : ℚ)
          wickets := (jsRound ((genDefendWickets o : ℤ) : ℚ) : ℚ)
          overs := (jsRound ((20 : ℚ) * 10) : ℚ) / 10 }
      toss_winner_id := if (tossOf o).1 = HomeAway.home then o.homeTeam.id else o.awayTeam.id
      toss_decision := (tossOf o).2.1
      player_of_match := none
      top_scorer := none
      best_bowler := none }

/-! ## The zustand store (simulationStore.ts)

The store is a record of every field held by `useSimulationStore`; each
action is a state transformer.  zustand's `set` merges a partial record into
the current state, so an action is modelled as updating exactly the fields it
passes to `set` and leaving every other field unchanged. -/

/-- The full store state of `useSimulationStore`.  `simulationData : any`
is only ever stored and cleared by the code under verification, so its
payload is abstracted to a natural number. -/
structure SimulationState where
  phase : SimulationPhase
  «matches» : List Match
  standings : List Standing
  topPerformers : TopPerformers
  playoffTeams : List Team
  champion : Option Team
  semifinal1Winner : Option Team
  semifinal1Loser : Option Team
  semifinal2Winner : Option Team
  semifinal2Loser : Option Team
  eliminatorWinner : Option Team
  currentMatchIndex : ℕ
  currentMatch : Option Match
  currentPlayoffPhase : Option PlayoffPhase
  isPlaying : Bool
  isPaused : Bool
  speedMultiplier : ℚ
  simulationData : Option ℕ
  showPreMatchOverlay : Bool
  preMatchStage : Option PreMatchStage
  isPreparingMatch : Bool
deriving DecidableEq, Repr

/-- The initial state of the store (simulationStore.ts lines 79-103). -/
def initialState : SimulationState where
  phase := SimulationPhase.INTRO
  «matches» := []
  standings := []
  topPerformers := ⟨none, none, none⟩
  playoffTeams := []
  champion := none
  semifinal1Winner := none
  semifinal1Loser := none
  semifinal2Winner := none
  semifinal2Loser := none
  eliminatorWinner := none
  currentMatchIndex := 0
  currentMatch := none
  currentPlayoffPhase := none
  isPlaying := false
  isPaused := false
  speedMultiplier := 1
  simulationData := none
  showPreMatchOverlay := false
  preMatchStage := none
  isPreparingMatch := false

/-- The `reset` action (simulationStore.ts lines 137-159).  It passes to
`set` exactly the fields listed in the source; zustand merges, so every field
not listed (`speedMultiplier`, `showPreMatchOverlay`, `preMatchStage`,
`isPreparingMatch`) keeps its current value. -/
def resetAction (s : SimulationState) : SimulationState :=
  { s with
    phase := SimulationPhase.INTRO
    «matches» := []
    standings := []
    topPerformers := ⟨none, none, none⟩
    playoffTeams := []
    champion := none
    semifinal1Winner := none
    semifinal1Loser := none
    semifinal2Winner := none
    semifinal2Loser := none
    eliminatorWinner := none
    currentMatchIndex := 0
    currentMatch := none
    currentPlayoffPhase := none
    isPlaying := false
    isPaused := false
    simulationData := none }

/-- One step of the merge loop shared by `setMatches` and
`updateMatchComplete`: given the existing and incoming match at one index,
the element pushed onto the merged array (none only when both are absent).
Mirrors the branch order of the source: missing new → keep existing; missing
existing → take new; existing completed → keep existing; new completed →
take new; otherwise take new. -/
def mergeOne (existing incoming : Option Match) : Option Match :=
  match incoming with
  | none => existing
  | some nw =>
    match existing with
    | none => some nw
    | some ex =>
      if ex.completed then some ex
      else if nw.completed then some nw
      else some nw

/-- The merge of the store's match list with an incoming match list, as
performed identically by `setMatches` (lines 162-201) and
`updateMatchComplete` (lines 217-264): a loop over
`0 ..= max(existing.length, incoming.length) - 1` pushing `mergeOne` of the
two entries whenever it produces one. -/
def mergeMatches (old incoming : List Match) : List Match :=
  (List.range (max old.length incoming.length)).filterMap
    (fun i => mergeOne old[i]? incoming[i]?)

/-- The `setMatches` action. -/
def setMatchesAction (s : SimulationState) (ms : List Match) : SimulationState :=
  { s with «matches» := mergeMatches s.«matches» ms }

/-- The argument record of `updateMatchComplete`. -/
structure MatchCompleteUpdates where
  standings : List Standing
  topPerformers : TopPerformers
  currentMatchIndex : ℕ
  «matches» : List Match
deriving DecidableEq, Repr

/-- The `updateMatchComplete` action: merges the incoming matches with the
existing ones, then sets standings, top performers, the match index, and the
current match (`mergedMatches[updates.currentMatchIndex] || null`). -/
def updateMatchCompleteAction (s : SimulationState) (u : MatchCompleteUpdates) :
    SimulationState :=
  let merged := mergeMatches s.«matches» u.«matches»
  { s with
    standings := u.standings
    topPerformers := u.topPerformers
    currentMatchIndex := u.currentMatchIndex
    «matches» := merged
    currentMatch := merged[u.currentMatchIndex]? }

/-! ## Toss derivation in prepareMatch (useSimulationLoop.ts lines 415-445) -/

/-- The deterministic toss derived in `prepareMatch`: the LCG is seeded with
the match id; the first draw decides the toss winner (`< 0.5` → home), the
second the decision (`< 0.6` → bat). -/
def prepareToss (matchId : ℕ) : HomeAway × TossDecision :=
  let s1 := lcgNext matchId
  let tossWinner := if ((s1 : ℚ) / 233280) < 1/2 then HomeAway.home else HomeAway.away
  let s2 := lcgNext s1
  let tossDecision := if ((s2 : ℚ) / 233280) < 6/10 then TossDecision.bat else TossDecision.bowl
  (tossWinner, tossDecision)

/-! ## Match resolution (useSimulationLoop.ts lines 711-812) -/

/-- JS `x || 50` for the optional win probability (undefined and 0 are
falsy). -/
def orDefault50 (x : Option ℚ) : ℚ :=
  match x with
  | some v => if v = 0 then 50 else v
  | none => 50

/-- The winner predetermined from the match-id seed and the home win
probability (useSimulationLoop.ts lines 739-740): the second LCG draw from
seed `matchId`, times 100, compared to the probability. -/
def determinedWinnerOf (matchId : ℕ) (homeWinProb : ℚ) : HomeAway :=
  if lcgDraw matchId 1 * 100 < homeWinProb then HomeAway.home else HomeAway.away

/-- The inputs to one resolution attempt: the identity of the match being
resolved, its stored prediction probability, its stored (partial) result
holding the toss, and the outcome of the `teamsAPI.getAll()` lookups for the
two sides (`none` when the fetch failed or the team was not found). -/
structure ResolveInput where
  matchId : ℕ
  home_team_id : ℕ
  away_team_id : ℕ
  home_team_name : String
  away_team_name : String
  venue_id : ℕ
  home_win_probability : Option ℚ
  storedResult : Option MatchResult
  homeTeam : Option Team
  awayTeam : Option Team

/-- The value a resolution attempt commits for the match: the no-result flag,
the winner, and the generated `MatchResult` (absent on no-result or when the
team lookup failed). -/
structure ResolveOutcome where
  noResult : Bool
  winner_id : Option ℕ
  winner_name : Option String
  result : Option MatchResult
deriving DecidableEq, Repr

/-- `existingTossResult` passed to the generator: the stored result's toss,
kept only when `toss_winner_id` is truthy (a team id of 0 — the placeholder —
is falsy in JS). -/
def tossFromStored (r : Option MatchResult) : Option (ℕ × TossDecision) :=
  match r with
  | some res => if res.toss_winner_id ≠ 0 then some (res.toss_winner_id, res.toss_decision) else none
  | none => none

/-- One resolution attempt (useSimulationLoop.ts lines 711-812).  `ambient`
is the LCG state left behind by any earlier code; the source opens with
`let seedState = seed` (line 717), overwriting it with the match id, so the
computation never reads it.  The first draw decides no-result (`< 0.02`);
the second decides the winner; the generator is then called with the seed
state reset to the match id (line 758) and with the stored toss. -/
def resolveMatchFrom (ambient : ℕ) (inp : ResolveInput) : ResolveOutcome :=
  let seed := inp.matchId
  let _seedState := ambient
  let _seedState := seed
  let homeWinProb := orDefault50 inp.home_win_probability
  let isNoResult := lcgDraw seed 0 < 2/100
  if isNoResult then
    { noResult := true, winner_id := none, winner_name := none, result := none }
  else
    let homeWins := determinedWinnerOf seed homeWinProb = HomeAway.home
    let winnerId := if homeWins then inp.home_team_id else inp.away_team_id
    let winnerName := if homeWins then inp.home_team_name else inp.away_team_name
    match inp.homeTeam, inp.awayTeam with
    | some ht, some aw =>
        let result := generateRealisticMatchResult
          { homeTeam := { id := ht.id, name := ht.name, short_name := ht.short_name }
            awayTeam := { id := aw.id, name := aw.name, short_name := aw.short_name }
            home_win_probability := homeWinProb
            away_win_probability := 100 - homeWinProb
            determinedWinner := if homeWins then HomeAway.home else HomeAway.away
            venue_id := inp.venue_id
            venue_avg_first_innings_score := none
            rand := lcgDraw seed
            existingTossResult := tossFromStored inp.storedResult }
        { noResult := false, winner_id := some winnerId,
          winner_name := some winnerName, result := some result }
    | _, _ =>
        { noResult := false, winner_id := some winnerId,
          winner_name := some winnerName, result := none }

/-! ## Error-path fallback (useSimulationLoop.ts lines 896-990)

The catch handler completes the match with a *fresh* `Math.random()` roll
(not the seeded generator): the three unseeded draws are modelled as
explicit rational arguments in the order the source consumes them. -/

/-- The fallback completion of `latestMatch` in the error handler, where
`r1` is the `Math.random()` used for the winner roll, and `r2`/`r3` those
used for the base home/away scores. -/
def fallbackResolve (m : Match) (r1 r2 r3 : ℚ) : Match :=
  let homeWinProb := orDefault50 m.home_win_probability
  let homeWins := r1 * 100 < homeWinProb
  let winnerId := if homeWins then m.home_team_id else m.away_team_id
  let winnerName := if homeWins then m.home_team_name else m.away_team_name
  let baseHomeScore : ℤ := jsFloor (r2 * 50) + 150
  let baseAwayScore : ℤ := jsFloor (r3 * 50) + 150
  let homeScore : ℤ := if homeWins then baseHomeScore else min (baseAwayScore - 1) baseHomeScore
  let awayScore : ℤ := if homeWins then min (baseHomeScore - 1) baseAwayScore else baseAwayScore
  { m with
    completed := true
    winner_id := some winnerId
    winner_name := some winnerName
    home_score := some (homeScore : ℚ)
    away_score := some (awayScore : ℚ) }

/-! ## updateStandings (useSimulationLoop.ts lines 70-225)

The JS `Map<number, TeamStats>` is modelled as an insertion-ordered
association list with unique keys (`statsSet` updates in place when the key
exists, appends otherwise — exactly `Map.prototype.set`), and the `forEach`
over completed matches as a left fold.  The non-null assertions
`teamStats.get(...)!` throw when the key is missing, so processing returns
an `Option`, `none` on that exception. -/

/-- `TeamStats` from useSimulationLoop.ts. -/
structure TeamStats where
  wins : ℚ
  losses : ℚ
  no_result : ℚ
  «matches» : ℚ
  runs_scored : ℚ
  runs_conceded : ℚ
  overs_faced : ℚ
  overs_bowled : ℚ
deriving DecidableEq, Repr

/-- The all-zero `TeamStats` record the seeding loops insert. -/
def zeroStats : TeamStats := ⟨0, 0, 0, 0, 0, 0, 0, 0⟩

/-- Insertion-ordered map model of `Map<number, TeamStats>`. -/
abbrev StatsMap := List (ℕ × TeamStats)

/-- `Map.prototype.get`. -/
def statsLookup (m : StatsMap) (k : ℕ) : Option TeamStats :=
  (List.find? (fun p => p.1 == k) m).map Prod.snd

/-- `Map.prototype.set`: replace in place when present, append otherwise. -/
def statsSet (m : StatsMap) (k : ℕ) (v : TeamStats) : StatsMap :=
  if (List.find? (fun p => p.1 == k) m).isSome
  then List.map (fun p => if p.1 = k then (p.1, v) else p) m
  else m ++ [(k, v)]

/-- Mutation of the stats record held under key `k` (the JS code mutates the
object returned by `get` in place; in-place field increments on a map entry
are modelled as updating that entry). -/
def statsUpdate (m : StatsMap) (k : ℕ) (f : TeamStats → TeamStats) : StatsMap :=
  List.map (fun p => if p.1 = k then (p.1, f p.2) else p) m

/-- The `Set<number>` of team ids collected from all matches, in first-seen
order. -/
def addUniqueId (l : List ℕ) (x : ℕ) : List ℕ :=
  if l.contains x then l else l ++ [x]

/-- `teamIds` from the empty-standings seeding branch: for each match, add
the home then the away team id. -/
def collectTeamIds (ms : List Match) : List ℕ :=
  ms.foldl (fun acc m => addUniqueId (addUniqueId acc m.home_team_id) m.away_team_id) []

/-- The body of `completedMatches.forEach` for one match: both team stats
records must exist (`get(...)!`), then matches, run-tracking, and
win/loss/no-result counters are incremented in source order.  `none` models
the TypeError thrown by the non-null assertion. -/
def applyMatchToStats (st : StatsMap) (m : Match) : Option StatsMap :=
  match statsLookup st m.home_team_id, statsLookup st m.away_team_id with
  | some _, some _ =>
    let st := statsUpdate st m.home_team_id
      (fun h => { h with «matches» := h.«matches» + 1 })
    let st := statsUpdate st m.away_team_id
      (fun a => { a with «matches» := a.«matches» + 1 })
    let st :=
      match m.home_score with
      | some hs =>
          statsUpdate
            (statsUpdate st m.home_team_id
              (fun h => { h with runs_scored := h.runs_scored + hs,
                                 overs_faced := h.overs_faced + 20 }))
            m.away_team_id
            (fun a => { a with runs_conceded := a.runs_conceded + hs,
                               overs_bowled := a.overs_bowled + 20 })
      | none => st
    let st :=
      match m.away_score with
      | some as2 =>
          statsUpdate
            (statsUpdate st m.away_team_id
              (fun a => { a with runs_scored := a.runs_scored + as2,
                                 overs_faced := a.overs_faced + 20 }))
            m.home_team_id
            (fun h => { h with runs_conceded := h.runs_conceded + as2,
                               overs_bowled := h.overs_bowled + 20 })
      | none => st
    let st :=
      if m.no_result = some true then
        statsUpdate
          (statsUpdate st m.home_team_id
            (fun h => { h with no_result := h.no_result + 1 }))
          m.away_team_id
          (fun a => { a with no_result := a.no_result + 1 })
      else
        match m.winner_id with
        | some w =>
            if w ≠ 0 then
              if w = m.home_team_id then
                statsUpdate
                  (statsUpdate st m.home_team_id (fun h => { h with wins := h.wins + 1 }))
                  m.away_team_id (fun a => { a with losses := a.losses + 1 })
              else
                statsUpdate
                  (statsUpdate st m.away_team_id (fun a => { a with wins := a.wins + 1 }))
                  m.home_team_id (fun h => { h with losses := h.losses + 1 })
            else st
        | none => st
    some st
  | _, _ => none

/-- The fold of `completedMatches.forEach`. -/
def processMatches (st : StatsMap) : List Match → Option StatsMap
  | [] => some st
  | m :: rest =>
    match applyMatchToStats st m with
    | some st2 => processMatches st2 rest
    | none => none

/-- The `teamStats` map after seeding (from the current standings, or from
the team ids of all matches when standings are empty) and processing every
completed league match. -/
def computeTeamStats (prior : List Standing) (ms : List Match) : Option StatsMap :=
  let completedMatches := ms.filter
    (fun m => m.completed && m.match_type == some MatchType.league)
  let seeded : StatsMap :=
    if prior.isEmpty then
      (collectTeamIds ms).foldl (fun st tid => statsSet st tid zeroStats) []
    else
      prior.foldl (fun st s => statsSet st s.team_id zeroStats) []
  processMatches seeded completedMatches

/-- Team-name resolution used when creating standings rows from scratch:
the first match involving the team supplies the name, with a
`"Team <id>"` fallback through JS `||` (empty string is falsy). -/
def teamNameFor (ms : List Match) (tid : ℕ) : String :=
  match ms.find? (fun m => m.home_team_id == tid || m.away_team_id == tid) with
  | some mm =>
      if mm.home_team_id = tid then mm.home_team_name
      else if mm.away_team_name = "" then "Team " ++ toString tid
      else mm.away_team_name
  | none => "Team " ++ toString tid

/-- Net run rate: `(runs scored / overs faced) - (runs conceded / overs
bowled)`, each term 0 when its overs are not positive. -/
def nrrOf (st : TeamStats) : ℚ :=
  (if 0 < st.overs_faced then st.runs_scored / st.overs_faced else 0)
    - (if 0 < st.overs_bowled then st.runs_conceded / st.overs_bowled else 0)

/-- The sort comparator (lines 213-217): points desc, then net run rate
desc, then wins desc. -/
def standingCmp (a b : Standing) : ℚ :=
  if b.points ≠ a.points then b.points - a.points
  else if b.net_run_rate ≠ a.net_run_rate then b.net_run_rate - a.net_run_rate
  else b.wins - a.wins

/-- "`a` sorts no later than `b`": the comparator is non-positive.  JS
`Array.prototype.sort` is required to be a stable sort under this total
preorder; it is modelled by the stable `List.insertionSort`, which produces
the same list as any other stable sort of the same total preorder. -/
def standingLE (a b : Standing) : Prop := standingCmp a b ≤ 0

instance : DecidableRel standingLE :=
  fun a b => inferInstanceAs (Decidable (standingCmp a b ≤ 0))

/-- A standings row created from scratch (empty-standings branch). -/
def mkStandingRow (ms : List Match) (tid : ℕ) (st : TeamStats) : Standing where
  team_id := tid
  team_name := teamNameFor ms tid
  position := 0
  matches_played := st.«matches»
  wins := st.wins
  losses := st.losses
  no_result := st.no_result
  points := st.wins * 2 + st.no_result * 1
  net_run_rate := nrrOf st
  playoff_probability := 0
  championship_probability := 0

/-- `updateStandings` (lines 70-225): recompute per-team stats from the
completed league matches, rebuild or update the standings rows, sort, and
assign 1-based positions.  `none` models the exception thrown by
`teamStats.get(...)!` on a match whose team is absent from the seeded map. -/
def updateStandings (prior : List Standing) (ms : List Match) : Option (List Standing) :=
  match computeTeamStats prior ms with
  | none => none
  | some stats =>
    let updatedStandings : List Standing :=
      if prior.isEmpty then
        stats.map (fun p => mkStandingRow ms p.1 p.2)
      else
        prior.map (fun s =>
          match statsLookup stats s.team_id with
          | some st =>
              { s with
                matches_played := st.«matches»
                wins := st.wins
                losses := st.losses
                no_result := st.no_result
                points := st.wins * 2 + st.no_result * 1
                net_run_rate := nrrOf st }
          | none => s)
    let sorted := updatedStandings.insertionSort standingLE
    some (sorted.mapIdx (fun i s => { s with position := (i : ℚ) + 1 }))

/-- `updateStandings` as it interacts with the store: it reads the current
standings from `getState()` and performs no `set`, so it returns its value
and leaves the store untouched. -/
def updateStandingsAct (s : SimulationState) (ms : List Match) :
    Option (List Standing) × SimulationState :=
  (updateStandings s.standings ms, s)

/-! ## Playoff bracket (useSimulationLoop.ts lines 325-340 and
SeasonSimulatorV2.tsx lines 96-207) -/

/-- `determinePlayoffTeams`: the top four standings rows become the playoff
teams (the top-performer recomputation in the same function discards its
value and touches no store field). -/
def determinePlayoffTeams (s : SimulationState) : SimulationState :=
  { s with
    playoffTeams := (s.standings.take 4).map
      (fun st => { id := st.team_id, name := st.team_name, short_name := st.team_name }) }

/-- `handleQualificationComplete`. -/
def handleQualificationComplete (s : SimulationState) : SimulationState :=
  { s with currentPlayoffPhase := some PlayoffPhase.semifinal_1,
           phase := SimulationPhase.PLAYOFFS }

/-- `handleSemifinal1Complete`. -/
def handleSemifinal1Complete (winner loser : Team) (s : SimulationState) : SimulationState :=
  { s with semifinal1Winner := some winner, semifinal1Loser := some loser,
           currentPlayoffPhase := some PlayoffPhase.semifinal_2 }

/-- `handleSemifinal2Complete`. -/
def handleSemifinal2Complete (winner loser : Team) (s : SimulationState) : SimulationState :=
  { s with semifinal2Winner := some winner, semifinal2Loser := some loser,
           currentPlayoffPhase := some PlayoffPhase.eliminator }

/-- `handleEliminatorComplete`. -/
def handleEliminatorComplete (winner : Team) (s : SimulationState) : SimulationState :=
  { s with eliminatorWinner := some winner,
           currentPlayoffPhase := some PlayoffPhase.final }

/-- `handleFinalComplete`. -/
def handleFinalComplete (winner : Team) (s : SimulationState) : SimulationState :=
  { s with champion := some winner, phase := SimulationPhase.CHAMPION }

/-- The PLAYOFFS render dispatch (SeasonSimulatorV2.tsx lines 160-207): the
pairing currently on screen, if any — semifinal 1 is teams 0 and 1 of the
qualified four, semifinal 2 teams 2 and 3, the eliminator pairs the
semifinal-1 loser with the semifinal-2 winner, and the final pairs the
semifinal-1 winner with the eliminator winner. -/
def renderedPlayoff (s : SimulationState) : Option (PlayoffPhase × Team × Team) :=
  if s.phase = SimulationPhase.PLAYOFFS ∧ 4 ≤ s.playoffTeams.length then
    match s.currentPlayoffPhase with
    | some PlayoffPhase.semifinal_1 =>
        match s.playoffTeams[0]?, s.playoffTeams[1]? with
        | some t1, some t2 => some (PlayoffPhase.semifinal_1, t1, t2)
        | _, _ => none
    | some PlayoffPhase.semifinal_2 =>
        match s.playoffTeams[2]?, s.playoffTeams[3]? with
        | some t1, some t2 => some (PlayoffPhase.semifinal_2, t1, t2)
        | _, _ => none
    | some PlayoffPhase.eliminator =>
        match s.semifinal1Loser, s.semifinal2Winner with
        | some l, some w => some (PlayoffPhase.eliminator, l, w)
        | _, _ => none
    | some PlayoffPhase.final =>
        match s.semifinal1Winner, s.eliminatorWinner with
        | some w1, some we => some (PlayoffPhase.final, w1, we)
        | _, _ => none
    | none => none
  else none

/-! ## Concrete store states, matches and options used by witnesses and
counterexamples -/

/-- A concrete completed match used by the C1 witness. -/
def mCompleted : Match where
  id := 1
  match_id := 1
  home_team_id := 10
  away_team_id := 20
  venue_id := 3
  home_team_name := "Sunrisers"
  away_team_name := "Royals"
  venue_name := "Wanderers"
  winner_id := some 10
  winner_name := some "Sunrisers"
  home_score := some 180
  away_score := some 160
  home_win_probability := some 55
  away_win_probability := some 45
  completed := true
  match_type := some MatchType.league
  no_result := some false
  toss_winner := some HomeAway.home
  bat_first := some HomeAway.home
  prediction_data := some ⟨some 55⟩
  result := none

/-- A conflicting incoming match (different winner) for the C1 witness. -/
def mIncoming : Match :=
  { mCompleted with winner_id := some 20, winner_name := some "Royals" }

/-- A store holding the completed match, for the C1 witness. -/
def c1State : SimulationState := { initialState with «matches» := [mCompleted] }

/-- An `updateMatchComplete` payload trying to overwrite it, for the C1
witness. -/
def c1Update : MatchCompleteUpdates where
  standings := []
  topPerformers := ⟨none, none, none⟩
  currentMatchIndex := 1
  «matches» := [mIncoming]

/-- A reachable store state with a non-default speed and an active pre-match
overlay, for the C9 counterexample. -/
def c9State : SimulationState :=
  { initialState with
    speedMultiplier := 2
    showPreMatchOverlay := true
    preMatchStage := some PreMatchStage.toss
    isPreparingMatch := true }

/-- The constant-zero draw stream (a valid `[0,1)` stream) for witnesses. -/
def zeroStream : ℕ → ℚ := fun _ => 0

/-- Concrete generator options for the C3/C10 witnesses. -/
def oW : GenOptions where
  homeTeam := ⟨10, "Sunrisers", "SUN"⟩
  awayTeam := ⟨20, "Royals", "ROY"⟩
  home_win_probability := 55
  away_win_probability := 45
  determinedWinner := HomeAway.home
  venue_id := 1
  venue_avg_first_innings_score := none
  rand := zeroStream
  existingTossResult := none

/-- A single completed league match for the C4 witness. -/
def wMatch : Match where
  id := 1
  match_id := 1
  home_team_id := 1
  away_team_id := 2
  venue_id := 1
  home_team_name := "A"
  away_team_name := "B"
  venue_name := "V"
  winner_id := some 1
  winner_name := some "A"
  home_score := some 160
  away_score := some 150
  home_win_probability := some 50
  away_win_probability := some 50
  completed := true
  match_type := some MatchType.league
  no_result := some false
  toss_winner := none
  bat_first := none
  prediction_data := none
  result := none

/-- The standings `updateStandings` computes from scratch for `wMatch`. -/
def c4Out : List Standing :=
  [{ team_id := 1, team_name := "A", position := 1, matches_played := 1,
     wins := 1, losses := 0, no_result := 0, points := 2, net_run_rate := 1/2,
     playoff_probability := 0, championship_probability := 0 },
   { team_id := 2, team_name := "B", position := 2, matches_played := 1,
     wins := 0, losses := 1, no_result := 0, points := 0, net_run_rate := -(1/2),
     playoff_probability := 0, championship_probability := 0 }]

/-- An uncompleted match with even win probability for the C8
counterexample. -/
def c8Match : Match where
  id := 1
  match_id := 1
  home_team_id := 10
  away_team_id := 20
  venue_id := 1
  home_team_name := "Sunrisers"
  away_team_name := "Royals"
  venue_name := "Wanderers"
  winner_id := none
  winner_name := none
  home_score := none
  away_score := none
  home_win_probability := some 50
  away_win_probability := some 50
  completed := false
  match_type := some MatchType.league
  no_result := none
  toss_winner := none
  bat_first := none
  prediction_data := some ⟨some 50⟩
  result := none

/-! ## Helper lemmas -/

/-- `Math.round` is the identity on integers. -/
theorem jsRound_intCast (n : ℤ) : jsRound (n : ℚ) = n := by
  unfold jsRound
  rw [Int.floor_eq_iff]
  refine ⟨by linarith, by linarith⟩

/-- Lower bound for `Math.floor`. -/
theorem jsFloor_ge {a : ℤ} {x : ℚ} (h : (a : ℚ) ≤ x) : a ≤ jsFloor x :=
  Int.le_floor.mpr h

/-- Upper bound for `Math.floor`. -/
theorem jsFloor_lt {b : ℤ} {x : ℚ} (h : x < (b : ℚ)) : jsFloor x < b :=
  Int.floor_lt.mpr h

/-- The wickets draw `Math.floor(4 + r * 5)` lands in `[4, 8]` for `r ∈ [0, 1)`. -/
theorem wickets45_bounds {r : ℚ} (h0 : 0 ≤ r) (h1 : r < 1) :
    4 ≤ jsFloor (4 + r * 5) ∧ jsFloor (4 + r * 5) ≤ 8 := by
  constructor
  · exact jsFloor_ge (by push_cast; nlinarith)
  · have : jsFloor (4 + r * 5) < 9 := jsFloor_lt (by push_cast; nlinarith)
    omega

/-- The wickets draw `Math.floor(6 + r * 4)` lands in `[6, 9]` for `r ∈ [0, 1)`. -/
theorem wickets64_bounds {r : ℚ} (h0 : 0 ≤ r) (h1 : r < 1) :
    6 ≤ jsFloor (6 + r * 4) ∧ jsFloor (6 + r * 4) ≤ 9 := by
  constructor
  · exact jsFloor_ge (by push_cast; nlinarith)
  · have : jsFloor (6 + r * 4) < 10 := jsFloor_lt (by push_cast; nlinarith)
    omega

/-- The clamp `Math.max(100, Math.min(250, x))` lands in `[100, 250]`. -/
theorem clamp_bounds (x : ℤ) :
    100 ≤ max 100 (min 250 x) ∧ max 100 (min 250 x) ≤ 250 :=
  ⟨le_max_left _ _, max_le (by norm_num) (min_le_left _ _)⟩

/-- The merge loop pushes an element whenever at least one of the two arrays
has an entry at the index. -/
theorem mergeOne_isSome {ex nw : Option Match} (h : ex.isSome ∨ nw.isSome) :
    (mergeOne ex nw).isSome := by
  cases nw with
  | none =>
    cases ex with
    | none => simp at h
    | some e => simp [mergeOne]
  | some n2 =>
    cases ex with
    | none => simp [mergeOne]
    | some e =>
      simp only [mergeOne]
      split_ifs <;> simp

/-- A `filterMap` over `range n` whose function never skips has length `n`. -/
theorem filterMap_range_length {α : Type} (f : ℕ → Option α) (n : ℕ)
    (hall : ∀ i, i < n → (f i).isSome) :
    ((List.range n).filterMap f).length = n := by
  induction n with
  | zero => simp
  | succ m ih =>
    rw [List.range_succ, List.filterMap_append]
    obtain ⟨a, ha⟩ := Option.isSome_iff_exists.mp (hall m (Nat.lt_succ_self m))
    simp [ha, ih (fun i hi => hall i (Nat.lt_succ_of_lt hi))]

/-- A `filterMap` over `range n` whose function never skips keeps every value
at its own index. -/
theorem filterMap_range_getElem {α : Type} (f : ℕ → Option α) (n k : ℕ)
    (hall : ∀ i, i < n → (f i).isSome) (hk : k < n) :
    ((List.range n).filterMap f)[k]? = f k := by
  induction n with
  | zero => omega
  | succ m ih =>
    rw [List.range_succ, List.filterMap_append, List.getElem?_append]
    have hlen : ((List.range m).filterMap f).length = m :=
      filterMap_range_length f m (fun i hi => hall i (Nat.lt_succ_of_lt hi))
    rcases Nat.lt_succ_iff_lt_or_eq.mp hk with h | h
    · rw [if_pos (by rw [hlen]; exact h)]
      exact ih (fun i hi => hall i (Nat.lt_succ_of_lt hi)) h
    · subst h
      rw [if_neg (by rw [hlen]; omega)]
      obtain ⟨a, ha⟩ := Option.isSome_iff_exists.mp (hall k (Nat.lt_succ_self k))
      simp [hlen, ha]

/-- The merge performed by `setMatches`/`updateMatchComplete` keeps every
already-completed existing match unchanged at its index, whatever the
incoming array holds. -/
theorem mergeMatches_preserves (old nw : List Match) (i : ℕ) (m : Match)
    (h1 : old[i]? = some m) (h2 : m.completed = true) :
    (mergeMatches old nw)[i]? = some m := by
  have hi : i < old.length := by
    rcases List.getElem?_eq_some_iff.mp h1 with ⟨h, _⟩
    exact h
  have hmax : i < max old.length nw.length := lt_of_lt_of_le hi (le_max_left _ _)
  have hall : ∀ j, j < max old.length nw.length →
      (mergeOne old[j]? nw[j]?).isSome := by
    intro j hj
    apply mergeOne_isSome
    rcases lt_max_iff.mp hj with hcase | hcase
    · left
      rw [List.getElem?_eq_getElem hcase]
      rfl
    · right
      rw [List.getElem?_eq_getElem hcase]
      rfl
  unfold mergeMatches
  rw [filterMap_range_getElem _ _ _ hall hmax, h1]
  cases hnw : nw[i]? with
  | none => rfl
  | some n2 => simp [mergeOne, h2]

/-- **C1** (Completed-match immutability): for every store state and every
`setMatches` or sequence of `updateMatchComplete` calls, a match whose
`completed` flag is true in the store's existing matches array appears
unchanged (the whole `Match` record, hence its `result` and `winner_id`) at
its index in the merged array, regardless of the incoming updates. -/
theorem completed_match_immutability_c1 (s : SimulationState) (i : ℕ) (m : Match)
    (incoming : List Match) (us : List MatchCompleteUpdates)
    (h1 : s.«matches»[i]? = some m) (h2 : m.completed = true) :
    (setMatchesAction s incoming).«matches»[i]? = some m
    ∧ ((us.foldl updateMatchCompleteAction s).«matches»)[i]? = some m := by
  refine ⟨mergeMatches_preserves _ _ _ _ h1 h2, ?_⟩
  induction us generalizing s with
  | nil => simpa using h1
  | cons u rest ih =>
    rw [List.foldl_cons]
    exact ih _ (mergeMatches_preserves s.«matches» u.«matches» i m h1 h2)

/-- Witness for C1 at a concrete store and update. -/
theorem completed_match_immutability_c1_witness :
    (setMatchesAction c1State [mIncoming]).«matches»[0]? = some mCompleted
    ∧ (([c1Update] : List MatchCompleteUpdates).foldl
        updateMatchCompleteAction c1State).«matches»[0]? = some mCompleted :=
  completed_match_immutability_c1 c1State 0 mCompleted [mIncoming] [c1Update] rfl rfl

/-- **C2** (Deterministic resolution replay): a resolution attempt is a pure
function of the match id (the LCG seed), the stored win probability, the
stored toss, and the team/venue metadata.  `resolveMatchFrom` takes the
generator state left behind by any earlier computation as an explicit
argument, and two attempts from arbitrary ambient states — in particular a
replay with any call count — commit bit-identical outcomes: the same
no-result flag, winner, and generated `MatchResult`. -/
theorem resolution_replay_deterministic_c2 (g1 g2 : ℕ) (inp : ResolveInput) :
    resolveMatchFrom g1 inp = resolveMatchFrom g2 inp := rfl

/-- **C5** (Idempotence of standings aggregation): `updateStandings` never
writes to the store, so with the store's prior standings fixed, two calls on
the same match list read the same state and return identical standings. -/
theorem standings_idempotent_c5 (s : SimulationState) (ms : List Match) :
    (updateStandingsAct s ms).2 = s
    ∧ (updateStandingsAct ((updateStandingsAct s ms).2) ms).1
        = (updateStandingsAct s ms).1 :=
  ⟨rfl, rfl⟩

/-- **C6** (Deterministic toss derivation): `prepareMatch` derives the toss
purely from the match id through the LCG `s' = (s*9301 + 49297) % 233280`
with uniform draws `s'/233280`: the toss winner is home iff the first draw
is below 0.5 (equivalently the first state is below 116640), and the
decision is bat iff the second draw is below 0.6 (equivalently the second
state is below 139968). -/
theorem toss_derivation_c6 (n : ℕ) :
    ((prepareToss n).1 = HomeAway.home ↔ ((lcgNext n : ℚ) / 233280) < 1/2)
    ∧ ((prepareToss n).2 = TossDecision.bat ↔ ((lcgNext (lcgNext n) : ℚ) / 233280) < 6/10)
    ∧ ((prepareToss n).1 = HomeAway.home ↔ lcgNext n < 116640)
    ∧ ((prepareToss n).2 = TossDecision.bat ↔ lcgNext (lcgNext n) < 139968)
    ∧ lcgNext n = (n * 9301 + 49297) % 233280 := by
  have hp1 : (prepareToss n).1 =
      (if ((lcgNext n : ℚ) / 233280) < 1/2 then HomeAway.home else HomeAway.away) := rfl
  have hp2 : (prepareToss n).2 =
      (if ((lcgNext (lcgNext n) : ℚ) / 233280) < 6/10 then TossDecision.bat
       else TossDecision.bowl) := rfl
  have e1 : ((lcgNext n : ℚ) / 233280 < 1/2) ↔ lcgNext n < 116640 := by
    rw [div_lt_iff₀ (by norm_num : (0:ℚ) < 233280)]
    constructor
    · intro h
      exact_mod_cast (by linarith : (lcgNext n : ℚ) < 116640)
    · intro h
      have h2 : (lcgNext n : ℚ) < 116640 := by exact_mod_cast h
      linarith
  have e2 : ((lcgNext (lcgNext n) : ℚ) / 233280 < 6/10) ↔
      lcgNext (lcgNext n) < 139968 := by
    rw [div_lt_iff₀ (by norm_num : (0:ℚ) < 233280)]
    constructor
    · intro h
      exact_mod_cast (by linarith : (lcgNext (lcgNext n) : ℚ) < 139968)
    · intro h
      have h2 : (lcgNext (lcgNext n) : ℚ) < 139968 := by exact_mod_cast h
      linarith
  refine ⟨?_, ?_, ?_, ?_, rfl⟩
  · rw [hp1]
    by_cases h : ((lcgNext n : ℚ) / 233280) < 1/2
    · rw [if_pos h]
      exact iff_of_true rfl h
    · rw [if_neg h]
      exact iff_of_false (by simp) h
  · rw [hp2]
    by_cases h : ((lcgNext (lcgNext n) : ℚ) / 233280) < 6/10
    · rw [if_pos h]
      exact iff_of_true rfl h
    · rw [if_neg h]
      exact iff_of_false (by simp) h
  · rw [hp1, ← e1]
    by_cases h : ((lcgNext n : ℚ) / 233280) < 1/2
    · rw [if_pos h]
      exact iff_of_true rfl h
    · rw [if_neg h]
      exact iff_of_false (by simp) h
  · rw [hp2, ← e2]
    by_cases h : ((lcgNext (lcgNext n) : ℚ) / 233280) < 6/10
    · rw [if_pos h]
      exact iff_of_true rfl h
    · rw [if_neg h]
      exact iff_of_false (by simp) h

/-- **C9 counterexample**: `reset()` does not return the store to a freshly
created store — from a state with `speedMultiplier = 2` the reset state
still has `speedMultiplier = 2` while a fresh store has `1`. -/
theorem reset_counterexample_c9 : resetAction c9State ≠ initialState := by
  intro h
  have h2 := congrArg SimulationState.speedMultiplier h
  norm_num [resetAction, c9State, initialState] at h2

/-- **C9 amended**: `reset()` restores every store field to its initial
value except `speedMultiplier`, `showPreMatchOverlay`, `preMatchStage` and
`isPreparingMatch`, which keep their current values (they are absent from
the partial record passed to `set`, and zustand merges). -/
theorem reset_partial_restore_c9 (s : SimulationState) :
    resetAction s =
      { initialState with
        speedMultiplier := s.speedMultiplier
        showPreMatchOverlay := s.showPreMatchOverlay
        preMatchStage := s.preMatchStage
        isPreparingMatch := s.isPreparingMatch } := rfl

/-- `Math.round` applied to a sum of two integers. -/
theorem jsRound_intCast_add (a b : ℤ) : jsRound ((a : ℚ) + (b : ℚ)) = a + b := by
  rw [show ((a : ℚ) + (b : ℚ)) = (((a + b : ℤ)) : ℚ) from by push_cast; ring,
    jsRound_intCast]

/-- `Math.round` applied to a difference of two integers. -/
theorem jsRound_intCast_sub (a b : ℤ) : jsRound ((a : ℚ) - (b : ℚ)) = a - b := by
  rw [show ((a : ℚ) - (b : ℚ)) = (((a - b : ℤ)) : ℚ) from by push_cast; ring,
    jsRound_intCast]

/-- Rounding to one decimal keeps an overs value from `[19, 20)` inside
`(0, 20]`. -/
theorem overs_round_bounds {x : ℚ} (h1 : (19:ℚ) ≤ x) (h2 : x < 20) :
    (0:ℚ) < (jsRound (x * 10) : ℚ) / 10 ∧ (jsRound (x * 10) : ℚ) / 10 ≤ 20 := by
  have hlo : (190:ℤ) ≤ jsRound (x * 10) := by
    unfold jsRound
    apply Int.le_floor.mpr
    push_cast
    linarith
  have hhi : jsRound (x * 10) < 201 := by
    unfold jsRound
    apply Int.floor_lt.mpr
    push_cast
    linarith
  have hlo2 : (190:ℚ) ≤ (jsRound (x * 10) : ℚ) := by exact_mod_cast hlo
  have hhi2 : (jsRound (x * 10) : ℚ) ≤ 200 := by
    exact_mod_cast Int.lt_add_one_iff.mp hhi
  constructor <;> linarith

/-- A constant 20-overs innings is stored as exactly 20 after the one-decimal
rounding. -/
theorem overs20_round : (jsRound ((20:ℚ) * 10) : ℚ) / 10 = 20 := by
  rw [show ((20:ℚ) * 10) = (((200:ℤ)) : ℚ) from by norm_num, jsRound_intCast]
  norm_num

/-- First-innings wickets draw lands in `[4, 8]`. -/
theorem genFirstInningsWickets_bounds (o : GenOptions)
    (hr : ∀ n, 0 ≤ o.rand n ∧ o.rand n < 1) :
    4 ≤ genFirstInningsWickets o ∧ genFirstInningsWickets o ≤ 8 :=
  wickets45_bounds (hr (genK0 o + 1)).1 (hr (genK0 o + 1)).2

/-- The all-out branch is unreachable: first-innings overs are always 20. -/
theorem genFirstInningsOvers_eq (o : GenOptions)
    (hr : ∀ n, 0 ≤ o.rand n ∧ o.rand n < 1) :
    genFirstInningsOvers o = 20 := by
  unfold genFirstInningsOvers
  have h := genFirstInningsWickets_bounds o hr
  rw [if_neg (by omega)]

/-- Chase margin lands in `[1, 15]`. -/
theorem genRunMargin_bounds (o : GenOptions)
    (hr : ∀ n, 0 ≤ o.rand n ∧ o.rand n < 1) :
    1 ≤ genRunMargin o ∧ genRunMargin o ≤ 15 := by
  unfold genRunMargin
  have h0 : 0 ≤ jsFloor (o.rand (genK1 o) * 15) :=
    jsFloor_ge (by push_cast; nlinarith [(hr (genK1 o)).1])
  have h1 : jsFloor (o.rand (genK1 o) * 15) < 15 :=
    jsFloor_lt (by push_cast; nlinarith [(hr (genK1 o)).2, (hr (genK1 o)).1])
  omega

/-- Defend shortfall is at least 5. -/
theorem genShortfall_ge (o : GenOptions)
    (hr : ∀ n, 0 ≤ o.rand n ∧ o.rand n < 1) :
    5 ≤ genShortfall o := by
  unfold genShortfall
  have h0 : 0 ≤ jsFloor (o.rand (genK1 o) * 30) :=
    jsFloor_ge (by push_cast; nlinarith [(hr (genK1 o)).1])
  omega

/-- Chase wickets draw lands in `[4, 8]`. -/
theorem genChaseWickets_bounds (o : GenOptions)
    (hr : ∀ n, 0 ≤ o.rand n ∧ o.rand n < 1) :
    4 ≤ genChaseWickets o ∧ genChaseWickets o ≤ 8 :=
  wickets45_bounds (hr (genK1 o + 1)).1 (hr (genK1 o + 1)).2

/-- Defend wickets draw lands in `[6, 9]`. -/
theorem genDefendWickets_bounds (o : GenOptions)
    (hr : ∀ n, 0 ≤ o.rand n ∧ o.rand n < 1) :
    6 ≤ genDefendWickets o ∧ genDefendWickets o ≤ 9 :=
  wickets64_bounds (hr (genK1 o + 1)).1 (hr (genK1 o + 1)).2

/-- With a margin of at most 15, the chase always goes to the last over:
overs land in `[19, 20)`. -/
theorem genChaseOvers_bounds (o : GenOptions)
    (hr : ∀ n, 0 ≤ o.rand n ∧ o.rand n < 1) :
    (19:ℚ) ≤ genChaseOvers o ∧ genChaseOvers o < 20 := by
  unfold genChaseOvers
  have hm := genRunMargin_bounds o hr
  rw [if_neg (by omega), if_neg (by omega)]
  constructor
  · nlinarith [(hr (genK1 o + 2)).1]
  · nlinarith [(hr (genK1 o + 2)).2]

/-- First-innings runs as stored: the clamped score itself. -/
theorem gen_fi_runs (o : GenOptions) :
    (generateRealisticMatchResult o).first_innings.runs
      = ((genClampedFirstInnings o : ℤ) : ℚ) := by
  unfold generateRealisticMatchResult
  split <;> (dsimp only; rw [jsRound_intCast])

/-- First-innings wickets as stored. -/
theorem gen_fi_wickets (o : GenOptions) :
    (generateRealisticMatchResult o).first_innings.wickets
      = ((genFirstInningsWickets o : ℤ) : ℚ) := by
  unfold generateRealisticMatchResult
  split <;> (dsimp only; rw [jsRound_intCast])

/-- First-innings overs as stored. -/
theorem gen_fi_overs (o : GenOptions) :
    (generateRealisticMatchResult o).first_innings.overs
      = (jsRound (genFirstInningsOvers o * 10) : ℚ) / 10 := by
  unfold generateRealisticMatchResult
  split <;> rfl

/-- Chase branch: second-innings runs as stored are target plus margin. -/
theorem gen_si_runs_chase (o : GenOptions) (hw : winnerIsSecondBatting o = true) :
    (generateRealisticMatchResult o).second_innings.runs
      = ((genClampedFirstInnings o + genRunMargin o : ℤ) : ℚ) := by
  unfold generateRealisticMatchResult
  rw [if_pos hw]
  dsimp only
  rw [jsRound_intCast_add]

/-- Chase branch: second-innings wickets as stored. -/
theorem gen_si_wickets_chase (o : GenOptions) (hw : winnerIsSecondBatting o = true) :
    (generateRealisticMatchResult o).second_innings.wickets
      = ((genChaseWickets o : ℤ) : ℚ) := by
  unfold generateRealisticMatchResult
  rw [if_pos hw]
  dsimp only
  rw [jsRound_intCast]

/-- Chase branch: second-innings overs as stored. -/
theorem gen_si_overs_chase (o : GenOptions) (hw : winnerIsSecondBatting o = true) :
    (generateRealisticMatchResult o).second_innings.overs
      = (jsRound (genChaseOvers o * 10) : ℚ) / 10 := by
  unfold generateRealisticMatchResult
  rw [if_pos hw]

/-- Defend branch: second-innings runs as stored are target minus shortfall. -/
theorem gen_si_runs_defend (o : GenOptions) (hw : winnerIsSecondBatting o = false) :
    (generateRealisticMatchResult o).second_innings.runs
      = ((genClampedFirstInnings o - genShortfall o : ℤ) : ℚ) := by
  unfold generateRealisticMatchResult
  rw [if_neg (by simp [hw])]
  dsimp only
  rw [jsRound_intCast_sub]

/-- Defend branch: second-innings wickets as stored. -/
theorem gen_si_wickets_defend (o : GenOptions) (hw : winnerIsSecondBatting o = false) :
    (generateRealisticMatchResult o).second_innings.wickets
      = ((genDefendWickets o : ℤ) : ℚ) := by
  unfold generateRealisticMatchResult
  rw [if_neg (by simp [hw])]
  dsimp only
  rw [jsRound_intCast]

/-- Defend branch: second-innings overs as stored are exactly 20. -/
theorem gen_si_overs_defend (o : GenOptions) (hw : winnerIsSecondBatting o = false) :
    (generateRealisticMatchResult o).second_innings.overs = 20 := by
  unfold generateRealisticMatchResult
  rw [if_neg (by simp [hw])]
  dsimp only
  exact overs20_round

/-- The clamp keeps the first-innings score in `[100, 250]`. -/
theorem genClamped_bounds (o : GenOptions) :
    100 ≤ genClampedFirstInnings o ∧ genClampedFirstInnings o ≤ 250 :=
  clamp_bounds (genFirstInningsRuns o)

/-- **C3** (Score plausibility): for every input whose draw stream stays in
`[0, 1)`, the generated result has first-innings runs in `[100, 250]`, both
wickets counts in `[0, 10]`, both overs values in `(0, 20]`, a strictly
higher second-innings score when the determined winner batted second, and a
strictly lower one when the determined winner batted first. -/
theorem score_plausibility_c3 (o : GenOptions)
    (hr : ∀ n, 0 ≤ o.rand n ∧ o.rand n < 1) :
    (100 ≤ (generateRealisticMatchResult o).first_innings.runs
      ∧ (generateRealisticMatchResult o).first_innings.runs ≤ 250)
    ∧ ((0:ℚ) ≤ (generateRealisticMatchResult o).first_innings.wickets
      ∧ (generateRealisticMatchResult o).first_innings.wickets ≤ 10)
    ∧ ((0:ℚ) ≤ (generateRealisticMatchResult o).second_innings.wickets
      ∧ (generateRealisticMatchResult o).second_innings.wickets ≤ 10)
    ∧ ((0:ℚ) < (generateRealisticMatchResult o).first_innings.overs
      ∧ (generateRealisticMatchResult o).first_innings.overs ≤ 20)
    ∧ ((0:ℚ) < (generateRealisticMatchResult o).second_innings.overs
      ∧ (generateRealisticMatchResult o).second_innings.overs ≤ 20)
    ∧ (winnerIsSecondBatting o = true →
        (generateRealisticMatchResult o).second_innings.runs
          > (generateRealisticMatchResult o).first_innings.runs)
    ∧ (winnerIsSecondBatting o = false →
        (generateRealisticMatchResult o).second_innings.runs
          < (generateRealisticMatchResult o).first_innings.runs) := by
  have hcl := genClamped_bounds o
  have hfw := genFirstInningsWickets_bounds o hr
  refine ⟨⟨?_, ?_⟩, ⟨?_, ?_⟩, ?_, ⟨?_, ?_⟩, ?_, ?_, ?_⟩
  · rw [gen_fi_runs]
    exact_mod_cast hcl.1
  · rw [gen_fi_runs]
    exact_mod_cast hcl.2
  · rw [gen_fi_wickets]
    have : (0:ℤ) ≤ genFirstInningsWickets o := by omega
    exact_mod_cast this
  · rw [gen_fi_wickets]
    have : genFirstInningsWickets o ≤ (10:ℤ) := by omega
    exact_mod_cast this
  · cases hw : winnerIsSecondBatting o with
    | true =>
      rw [gen_si_wickets_chase o hw]
      have hb := genChaseWickets_bounds o hr
      constructor
      · have : (0:ℤ) ≤ genChaseWickets o := by omega
        exact_mod_cast this
      · have : genChaseWickets o ≤ (10:ℤ) := by omega
        exact_mod_cast this
    | false =>
      rw [gen_si_wickets_defend o hw]
      have hb := genDefendWickets_bounds o hr
      constructor
      · have : (0:ℤ) ≤ genDefendWickets o := by omega
        exact_mod_cast this
      · have : genDefendWickets o ≤ (10:ℤ) := by omega
        exact_mod_cast this
  · rw [gen_fi_overs, genFirstInningsOvers_eq o hr, overs20_round]
    norm_num
  · rw [gen_fi_overs, genFirstInningsOvers_eq o hr, overs20_round]
  · cases hw : winnerIsSecondBatting o with
    | true =>
      rw [gen_si_overs_chase o hw]
      have hb := genChaseOvers_bounds o hr
      exact overs_round_bounds hb.1 hb.2
    | false =>
      rw [gen_si_overs_defend o hw]
      norm_num
  · intro hw
    rw [gen_si_runs_chase o hw, gen_fi_runs]
    have hm := genRunMargin_bounds o hr
    have : genClampedFirstInnings o < genClampedFirstInnings o + genRunMargin o := by
      omega
    exact_mod_cast this
  · intro hw
    rw [gen_si_runs_defend o hw, gen_fi_runs]
    have hs := genShortfall_ge o hr
    have : genClampedFirstInnings o - genShortfall o < genClampedFirstInnings o := by
      omega
    exact_mod_cast this

/-- **C10** (implicit, first innings always full): the first-innings wickets
draw `floor(4 + r*5)` with `r ∈ [0, 1)` lands in `[4, 8]` and is never 10,
so the all-out branch is unreachable and the stored first-innings overs are
exactly 20. -/
theorem first_innings_full_overs_c10 (o : GenOptions)
    (hr : ∀ n, 0 ≤ o.rand n ∧ o.rand n < 1) :
    (generateRealisticMatchResult o).first_innings.overs = 20
    ∧ (4:ℚ) ≤ (generateRealisticMatchResult o).first_innings.wickets
    ∧ (generateRealisticMatchResult o).first_innings.wickets ≤ 8
    ∧ genFirstInningsWickets o ≠ 10 := by
  have hfw := genFirstInningsWickets_bounds o hr
  refine ⟨?_, ?_, ?_, by omega⟩
  · rw [gen_fi_overs, genFirstInningsOvers_eq o hr, overs20_round]
  · rw [gen_fi_wickets]
    exact_mod_cast hfw.1
  · rw [gen_fi_wickets]
    exact_mod_cast hfw.2

/-- Witness for C3 at concrete options with the zero draw stream. -/
theorem score_plausibility_c3_witness :
    (∀ n, 0 ≤ oW.rand n ∧ oW.rand n < 1)
    ∧ ((100 ≤ (generateRealisticMatchResult oW).first_innings.runs
      ∧ (generateRealisticMatchResult oW).first_innings.runs ≤ 250)
    ∧ ((0:ℚ) ≤ (generateRealisticMatchResult oW).first_innings.wickets
      ∧ (generateRealisticMatchResult oW).first_innings.wickets ≤ 10)
    ∧ ((0:ℚ) ≤ (generateRealisticMatchResult oW).second_innings.wickets
      ∧ (generateRealisticMatchResult oW).second_innings.wickets ≤ 10)
    ∧ ((0:ℚ) < (generateRealisticMatchResult oW).first_innings.overs
      ∧ (generateRealisticMatchResult oW).first_innings.overs ≤ 20)
    ∧ ((0:ℚ) < (generateRealisticMatchResult oW).second_innings.overs
      ∧ (generateRealisticMatchResult oW).second_innings.overs ≤ 20)
    ∧ (winnerIsSecondBatting oW = true →
        (generateRealisticMatchResult oW).second_innings.runs
          > (generateRealisticMatchResult oW).first_innings.runs)
    ∧ (winnerIsSecondBatting oW = false →
        (generateRealisticMatchResult oW).second_innings.runs
          < (generateRealisticMatchResult oW).first_innings.runs)) :=
  ⟨fun n => by norm_num [oW, zeroStream],
   score_plausibility_c3 oW (fun n => by norm_num [oW, zeroStream])⟩

/-- Witness for C10 at the same concrete options. -/
theorem first_innings_full_overs_c10_witness :
    (∀ n, 0 ≤ oW.rand n ∧ oW.rand n < 1)
    ∧ ((generateRealisticMatchResult oW).first_innings.overs = 20
    ∧ (4:ℚ) ≤ (generateRealisticMatchResult oW).first_innings.wickets
    ∧ (generateRealisticMatchResult oW).first_innings.wickets ≤ 8
    ∧ genFirstInningsWickets oW ≠ 10) :=
  ⟨fun n => by norm_num [oW, zeroStream],
   first_innings_full_overs_c10 oW (fun n => by norm_num [oW, zeroStream])⟩

/-- `find?` over an association list: the head is returned when its key
matches. -/
theorem find_key_cons_pos (x : ℕ × TeamStats) (l : List (ℕ × TeamStats)) (q : ℕ)
    (h : (x.1 == q) = true) :
    List.find? (fun r => r.1 == q) (x :: l) = some x :=
  List.find?_cons_of_pos l h

/-- `find?` over an association list: the head is skipped when its key does
not match. -/
theorem find_key_cons_neg (x : ℕ × TeamStats) (l : List (ℕ × TeamStats)) (q : ℕ)
    (h : (x.1 == q) = false) :
    List.find? (fun r => r.1 == q) (x :: l) = List.find? (fun r => r.1 == q) l :=
  List.find?_cons_of_neg l (by simp [h])

/-- `statsUpdate` rewrites the value at the updated key and nothing else. -/
theorem statsLookup_statsUpdate (m : StatsMap) (k : ℕ) (f : TeamStats → TeamStats)
    (q : ℕ) :
    statsLookup (statsUpdate m k f) q
      = (statsLookup m q).map (fun v => if q = k then f v else v) := by
  induction m with
  | nil => rfl
  | cons p rest ih =>
    unfold statsUpdate at ih ⊢
    rw [List.map_cons]
    by_cases h1 : p.1 = q
    · subst h1
      have hpos : (((if p.1 = k then (p.1, f p.2) else p)).1 == p.1) = true := by
        by_cases h2 : p.1 = k <;> simp [h2]
      have hpos2 : (p.1 == p.1) = true := by simp
      unfold statsLookup
      rw [find_key_cons_pos _ _ _ hpos, find_key_cons_pos _ _ _ hpos2]
      by_cases h2 : p.1 = k <;> simp [h2]
    · have hneg : (((if p.1 = k then (p.1, f p.2) else p)).1 == q) = false := by
        by_cases h2 : p.1 = k
        · subst h2
          simp [h1]
        · simp [h2, h1]
      have hneg2 : (p.1 == q) = false := by simp [h1]
      unfold statsLookup at ih ⊢
      rw [find_key_cons_neg _ _ _ hneg, find_key_cons_neg _ _ _ hneg2]
      exact ih

/-- `Option.map` preserves `isSome`. -/
theorem isSome_omap {α β : Type} (f : α → β) (x : Option α) :
    (x.map f).isSome = x.isSome := by
  cases x <;> rfl

/-- `statsUpdate` preserves which keys are present. -/
theorem statsUpdate_isSome (s : StatsMap) (k : ℕ) (f : TeamStats → TeamStats)
    (q : ℕ) :
    (statsLookup (statsUpdate s k f) q).isSome = (statsLookup s q).isSome := by
  rw [statsLookup_statsUpdate, isSome_omap]

/-- `statsSet` makes its key present and keeps every present key present. -/
theorem statsSet_isSome (m : StatsMap) (k : ℕ) (v : TeamStats) (q : ℕ) :
    (statsLookup (statsSet m k v) q).isSome
      = ((q == k) || (statsLookup m q).isSome) := by
  unfold statsSet
  by_cases hp : (List.find? (fun p => p.1 == k) m).isSome = true
  · rw [if_pos hp]
    have hup : List.map (fun p => if p.1 = k then (p.1, v) else p) m
        = statsUpdate m k (fun _ => v) := rfl
    rw [hup, statsUpdate_isSome]
    by_cases hq : q = k
    · subst hq
      have hsome : (statsLookup m q).isSome = true := by
        unfold statsLookup
        rw [isSome_omap]
        exact hp
      simp [hsome]
    · simp [hq]
  · rw [if_neg hp]
    clear hp
    induction m with
    | nil =>
      by_cases hq : q = k
      · subst hq
        simp [statsLookup, List.find?]
      · have h1 : (k == q) = false := beq_eq_false_iff_ne.mpr (Ne.symm hq)
        have h2 : (q == k) = false := beq_eq_false_iff_ne.mpr hq
        simp [statsLookup, List.find?, h1, h2]
    | cons p rest ih =>
      by_cases hpq : p.1 = q
      · have hbq : (p.1 == q) = true := by simp [hpq]
        unfold statsLookup
        rw [List.cons_append, find_key_cons_pos _ _ _ hbq, find_key_cons_pos _ _ _ hbq]
        simp
      · have hbq : (p.1 == q) = false := by simp [hpq]
        unfold statsLookup at ih ⊢
        rw [List.cons_append, find_key_cons_neg _ _ _ hbq, find_key_cons_neg _ _ _ hbq]
        exact ih

/-- Processing one completed match leaves the key set of the stats map
unchanged (it only updates entries in place). -/
theorem applyMatch_isSome (st : StatsMap) (m : Match) (st2 : StatsMap)
    (h : applyMatchToStats st m = some st2) (q : ℕ) :
    (statsLookup st2 q).isSome = (statsLookup st q).isSome := by
  unfold applyMatchToStats at h
  split at h
  · injection h with h2
    subst h2
    repeat' split
    all_goals simp only [statsUpdate_isSome]
  · exact absurd h (by simp)

/-- Folding all completed matches leaves the key set unchanged. -/
theorem processMatches_isSome (l : List Match) (st st2 : StatsMap)
    (h : processMatches st l = some st2) (q : ℕ) :
    (statsLookup st2 q).isSome = (statsLookup st q).isSome := by
  induction l generalizing st with
  | nil =>
    unfold processMatches at h
    injection h with h2
    subst h2
    rfl
  | cons m rest ih =>
    unfold processMatches at h
    split at h
    · rename_i stM heq
      rw [ih stM h, applyMatch_isSome st m stM heq q]
    · exact absurd h (by simp)

/-- Seeding the stats map from a list of standings makes every listed
team id present. -/
theorem seeded_hasKey (l : List Standing) (acc : StatsMap) (q : ℕ)
    (h : (∃ s ∈ l, s.team_id = q) ∨ (statsLookup acc q).isSome = true) :
    (statsLookup (l.foldl (fun st s => statsSet st s.team_id zeroStats) acc) q).isSome
      = true := by
  induction l generalizing acc with
  | nil =>
    rcases h with ⟨s, hs, _⟩ | hacc
    · exact absurd hs (by simp)
    · exact hacc
  | cons s rest ih =>
    rw [List.foldl_cons]
    apply ih
    rcases h with ⟨s0, hs0, hq⟩ | hacc
    · rcases List.mem_cons.mp hs0 with rfl | hmem
      · right
        rw [statsSet_isSome]
        simp [hq]
      · left
        exact ⟨s0, hmem, hq⟩
    · right
      rw [statsSet_isSome, hacc]
      simp

/-- Pointwise property transfer through `mapIdx`. -/
theorem forall_mem_mapIdx {α β : Type} (l : List α) (f : ℕ → α → β) (P : β → Prop)
    (h : ∀ i r, r ∈ l → P (f i r)) : ∀ s ∈ l.mapIdx f, P s := by
  intro s hs
  rcases List.mem_iff_getElem.mp hs with ⟨i, hi, hEq⟩
  rw [List.getElem_mapIdx] at hEq
  rw [← hEq]
  exact h i _ (List.getElem_mem _)

/-- **C4** (Points formula): whenever `updateStandings` returns a standings
list, every row satisfies `points = 2*wins + 1*no_result`, where the row's
`wins` and `no_result` fields are the counts folded from that team's
completed league matches by `computeTeamStats` (rows are rebuilt from the
folded stats in both the empty- and nonempty-standings branches). -/
theorem points_formula_c4 (prior : List Standing) (ms : List Match)
    (out : List Standing) (h : updateStandings prior ms = some out) :
    ∀ s ∈ out, s.points = 2 * s.wins + 1 * s.no_result := by
  unfold updateStandings at h
  cases hcs : computeTeamStats prior ms with
  | none =>
    rw [hcs] at h
    exact absurd h (by simp)
  | some stats =>
    rw [hcs] at h
    injection h with h2
    subst h2
    apply forall_mem_mapIdx
    intro i r hr
    show ({ r with position := (i : ℚ) + 1 } : Standing).points
      = 2 * ({ r with position := (i : ℚ) + 1 } : Standing).wins
        + 1 * ({ r with position := (i : ℚ) + 1 } : Standing).no_result
    have hr2 := (List.perm_insertionSort standingLE _).mem_iff.mp hr
    by_cases hpe : prior.isEmpty
    · rw [if_pos hpe] at hr2
      rcases List.mem_map.mp hr2 with ⟨p, _, hp2⟩
      rw [← hp2]
      show (mkStandingRow ms p.1 p.2).points
        = 2 * (mkStandingRow ms p.1 p.2).wins + 1 * (mkStandingRow ms p.1 p.2).no_result
      unfold mkStandingRow
      ring
    · rw [if_neg hpe] at hr2
      rcases List.mem_map.mp hr2 with ⟨s0, hs0, hp2⟩
      have hkey : (statsLookup stats s0.team_id).isSome = true := by
        unfold computeTeamStats at hcs
        rw [if_neg hpe] at hcs
        rw [processMatches_isSome _ _ _ hcs s0.team_id]
        exact seeded_hasKey prior [] s0.team_id (Or.inl ⟨s0, hs0, rfl⟩)
      rcases Option.isSome_iff_exists.mp hkey with ⟨st, hst⟩
      rw [hst] at hp2
      rw [← hp2]
      dsimp only
      ring

/-- Bridge from `Nat` boolean equality to `decide`, letting `simp` reduce
ground `==` tests. -/
theorem nat_beq_decide (a b : ℕ) : (a == b) = decide (a = b) := rfl

/-- Witness for C4 at a concrete match list. -/
theorem points_formula_c4_witness :
    updateStandings [] [wMatch] = some c4Out
    ∧ ∀ s ∈ c4Out, s.points = 2 * s.wins + 1 * s.no_result := by
  have h : updateStandings [] [wMatch] = some c4Out := by
    norm_num +decide [updateStandings, computeTeamStats, processMatches, applyMatchToStats,
      statsLookup, statsSet, statsUpdate, collectTeamIds, addUniqueId, zeroStats,
      wMatch, List.find?, mkStandingRow, teamNameFor, nrrOf,
      List.insertionSort, List.orderedInsert, standingLE, standingCmp,
      List.mapIdx_eq_enum_map, List.enum, List.enumFrom, Function.uncurry, c4Out,
      nat_beq_decide]
  exact ⟨h, points_formula_c4 [] [wMatch] c4Out h⟩

/-- **C7** (Playoff bracket wiring): from any store whose standings begin
with four rows, qualification takes exactly those four teams in order;
semifinal 1 shows teams 1 and 2, semifinal 2 teams 3 and 4; after any
outcomes, the eliminator shows semifinal-1 loser vs semifinal-2 winner, the
final shows semifinal-1 winner vs eliminator winner, and the final's winner
becomes champion. -/
theorem playoff_bracket_c7 (s0 : SimulationState) (st1 st2 st3 st4 : Standing)
    (rest : List Standing) (b1 b2 b3 b4 : Bool) :
    let T1 : Team := ⟨st1.team_id, st1.team_name, st1.team_name⟩
    let T2 : Team := ⟨st2.team_id, st2.team_name, st2.team_name⟩
    let T3 : Team := ⟨st3.team_id, st3.team_name, st3.team_name⟩
    let T4 : Team := ⟨st4.team_id, st4.team_name, st4.team_name⟩
    let sQ := handleQualificationComplete (determinePlayoffTeams
      { s0 with standings := st1 :: st2 :: st3 :: st4 :: rest })
    let w1 := if b1 then T1 else T2
    let l1 := if b1 then T2 else T1
    let s2 := handleSemifinal1Complete w1 l1 sQ
    let w2 := if b2 then T3 else T4
    let l2 := if b2 then T4 else T3
    let s3 := handleSemifinal2Complete w2 l2 s2
    let we := if b3 then l1 else w2
    let s4 := handleEliminatorComplete we s3
    let wf := if b4 then w1 else we
    let s5 := handleFinalComplete wf s4
    sQ.playoffTeams = [T1, T2, T3, T4]
    ∧ renderedPlayoff sQ = some (PlayoffPhase.semifinal_1, T1, T2)
    ∧ renderedPlayoff s2 = some (PlayoffPhase.semifinal_2, T3, T4)
    ∧ renderedPlayoff s3 = some (PlayoffPhase.eliminator, l1, w2)
    ∧ renderedPlayoff s4 = some (PlayoffPhase.final, w1, we)
    ∧ s5.champion = some wf := by
  exact ⟨rfl, rfl, rfl, rfl, rfl, rfl⟩

/-- **C8 counterexample**: for match id 1 with probability 50, the
seed-predetermined winner is the away side, yet the error-path fallback with
a fresh roll of 0 completes the match with the home side as winner — the
fallback re-rolls `Math.random()` instead of reusing the predetermined
winner; moreover the loser's recorded score in the same run is 149, outside
`[150, 200)`. -/
theorem fallback_counterexample_c8 :
    determinedWinnerOf c8Match.id (orDefault50 c8Match.home_win_probability)
      = HomeAway.away
    ∧ (fallbackResolve c8Match 0 0 0).winner_id = some c8Match.home_team_id
    ∧ c8Match.home_team_id ≠ c8Match.away_team_id
    ∧ (fallbackResolve c8Match 0 0 0).away_score = some (149:ℚ)
    ∧ ¬((150:ℚ) ≤ 149) := by
  refine ⟨?_, ?_, by norm_num [c8Match], ?_, by norm_num⟩
  · norm_num [determinedWinnerOf, lcgDraw, lcgIter, lcgNext, c8Match, orDefault50]
  · norm_num [fallbackResolve, c8Match, orDefault50]
  · norm_num [fallbackResolve, c8Match, orDefault50, jsFloor]

/-- **C8 amended**: when resolution fails, the error handler completes the
match with the winner decided by a *fresh* uniform roll `r1*100 <
home_win_probability || 50` (not the seed-predetermined winner); each side's
base score is `150 + floor(r*50) ∈ [150, 200)`; the winner's recorded score
is its base score and the loser's is the minimum of its own base score and
the winner's base minus one — hence strictly below the winner's (but
possibly 149). -/
theorem fallback_resolution_c8_amended (m : Match) (r1 r2 r3 : ℚ)
    (h2 : 0 ≤ r2 ∧ r2 < 1) (h3 : 0 ≤ r3 ∧ r3 < 1) :
    (fallbackResolve m r1 r2 r3).completed = true
    ∧ (fallbackResolve m r1 r2 r3).winner_id
        = some (if r1 * 100 < orDefault50 m.home_win_probability
                then m.home_team_id else m.away_team_id)
    ∧ ∃ ws ls : ℤ,
        150 ≤ ws ∧ ws < 200 ∧ ls < ws
        ∧ (if r1 * 100 < orDefault50 m.home_win_probability
           then (fallbackResolve m r1 r2 r3).home_score = some (ws:ℚ)
             ∧ (fallbackResolve m r1 r2 r3).away_score = some (ls:ℚ)
           else (fallbackResolve m r1 r2 r3).away_score = some (ws:ℚ)
             ∧ (fallbackResolve m r1 r2 r3).home_score = some (ls:ℚ)) := by
  by_cases hw : r1 * 100 < orDefault50 m.home_win_probability
  · refine ⟨rfl, ?_, jsFloor (r2 * 50) + 150,
      min (jsFloor (r2 * 50) + 150 - 1) (jsFloor (r3 * 50) + 150), ?_, ?_, ?_, ?_⟩
    · simp only [fallbackResolve]
    · have : (0:ℤ) ≤ jsFloor (r2 * 50) := jsFloor_ge (by push_cast; nlinarith [h2.1])
      omega
    · have : jsFloor (r2 * 50) < 50 := jsFloor_lt (by push_cast; nlinarith [h2.2, h2.1])
      omega
    · exact lt_of_le_of_lt (min_le_left _ _) (by omega)
    · rw [if_pos hw]
      simp only [fallbackResolve]
      rw [if_pos hw, if_pos hw]
      exact ⟨rfl, rfl⟩
  · refine ⟨rfl, ?_, jsFloor (r3 * 50) + 150,
      min (jsFloor (r3 * 50) + 150 - 1) (jsFloor (r2 * 50) + 150), ?_, ?_, ?_, ?_⟩
    · simp only [fallbackResolve]
    · have : (0:ℤ) ≤ jsFloor (r3 * 50) := jsFloor_ge (by push_cast; nlinarith [h3.1])
      omega
    · have : jsFloor (r3 * 50) < 50 := jsFloor_lt (by push_cast; nlinarith [h3.2, h3.1])
      omega
    · exact lt_of_le_of_lt (min_le_left _ _) (by omega)
    · rw [if_neg hw]
      simp only [fallbackResolve]
      rw [if_neg hw, if_neg hw]
      exact ⟨rfl, rfl⟩

/-- Witness for the amended C8 at a concrete match and draws. -/
theorem fallback_resolution_c8_witness :
    (((0:ℚ) ≤ 0 ∧ (0:ℚ) < 1) ∧ ((0:ℚ) ≤ 0 ∧ (0:ℚ) < 1))
    ∧ ((fallbackResolve c8Match 0 0 0).completed = true
    ∧ (fallbackResolve c8Match 0 0 0).winner_id
        = some (if (0:ℚ) * 100 < orDefault50 c8Match.home_win_probability
                then c8Match.home_team_id else c8Match.away_team_id)
    ∧ ∃ ws ls : ℤ,
        150 ≤ ws ∧ ws < 200 ∧ ls < ws
        ∧ (if (0:ℚ) * 100 < orDefault50 c8Match.home_win_probability
           then (fallbackResolve c8Match 0 0 0).home_score = some (ws:ℚ)
             ∧ (fallbackResolve c8Match 0 0 0).away_score = some (ls:ℚ)
           else (fallbackResolve c8Match 0 0 0).away_score = some (ws:ℚ)
             ∧ (fallbackResolve c8Match 0 0 0).home_score = some (ls:ℚ))) :=
  ⟨⟨⟨le_refl 0, by norm_num⟩, ⟨le_refl 0, by norm_num⟩⟩,
   fallback_resolution_c8_amended c8Match 0 0 0 ⟨le_refl 0, by norm_num⟩
     ⟨le_refl 0, by norm_num⟩⟩
